import Mathlib

/-!
Shallow embedding of the popcorn-native game core (GameConfig.h, FallingItem.h,
CollisionSystem.cpp, GameEngine.cpp, PoseDetector.cpp) and proofs about it.
C++ float values are modelled as exact rationals, int as Int, bool as Bool.
-/

namespace popcorn

/- Embeds namespace Colors of GameConfig.h. -/
namespace Colors

def P1 : Nat := 0x007AFF
def P2 : Nat := 0xFF3B30
def Shared : Nat := 0xFFD700
def White : Nat := 0xFFFFFF
def Black : Nat := 0x000000
def Popcorn : Nat := 0xFFFFCC
def Ticket : Nat := 0xFF6B35
def Cola : Nat := 0xFF0000
def Filmroll : Nat := 0xFFD700
def Bomb : Nat := 0xFF0000

end Colors

/-- Embeds enum class ItemType of GameConfig.h. -/
inductive ItemType where
  | Popcorn
  | Ticket
  | Cola
  | Filmroll
  | Bomb
deriving DecidableEq, Repr

/-- Embeds struct ItemConfig of GameConfig.h (emoji omitted as irrelevant here). -/
structure ItemConfig where
  type : ItemType
  name : String
  score : Int
  color : Nat
  size : ℚ
  speedMultiplier : ℚ

/-- Embeds the ITEM_CONFIGS table of GameConfig.h. The C++ std::map contains
every ItemType key, so it is modelled as a total function. -/
def ITEM_CONFIGS : ItemType → ItemConfig
  | ItemType.Popcorn =>
      { type := ItemType.Popcorn, name := "爆米花", score := 10,
        color := Colors.Popcorn, size := 65, speedMultiplier := 0.8 }
  | ItemType.Ticket =>
      { type := ItemType.Ticket, name := "电影票", score := 25,
        color := Colors.Ticket, size := 70, speedMultiplier := 1.0 }
  | ItemType.Cola =>
      { type := ItemType.Cola, name := "可乐杯", score := 50,
        color := Colors.Cola, size := 75, speedMultiplier := 1.2 }
  | ItemType.Filmroll =>
      { type := ItemType.Filmroll, name := "胶片卷", score := 100,
        color := Colors.Filmroll, size := 85, speedMultiplier := 1.2 }
  | ItemType.Bomb =>
      { type := ItemType.Bomb, name := "炸弹", score := -30,
        color := Colors.Bomb, size := 70, speedMultiplier := 1.0 }

/-- Embeds ITEM_SPAWN_WEIGHTS of GameConfig.h, in std::map iteration order
(the enum value order). -/
def ITEM_SPAWN_WEIGHTS : List (ItemType × Int) :=
  [(ItemType.Popcorn, 40), (ItemType.Ticket, 22), (ItemType.Cola, 15),
   (ItemType.Filmroll, 15), (ItemType.Bomb, 8)]

/-- Embeds enum class GamePhase of GameConfig.h. -/
inductive GamePhase where
  | Warmup
  | Rush
  | Finale
deriving DecidableEq, Repr

/-- Embeds struct PhaseConfig of GameConfig.h. -/
structure PhaseConfig where
  duration : ℚ
  fallSpeed : ℚ
  spawnRate : ℚ
  specialRate : ℚ
  obstacleRate : ℚ
  title : String
  subtitle : String

/-- Embeds the PHASE_CONFIGS table of GameConfig.h; the map contains all three
phases, so it is modelled as a total function. -/
def PHASE_CONFIGS : GamePhase → PhaseConfig
  | GamePhase.Warmup =>
      { duration := 15, fallSpeed := 400, spawnRate := 4, specialRate := 0.10,
        obstacleRate := 0.05, title := "热身期", subtitle := "观众入场" }
  | GamePhase.Rush =>
      { duration := 15, fallSpeed := 620, spawnRate := 6, specialRate := 0.25,
        obstacleRate := 0.10, title := "加速期", subtitle := "人潮涌动!" }
  | GamePhase.Finale =>
      { duration := 15, fallSpeed := 880, spawnRate := 8, specialRate := 0.40,
        obstacleRate := 0.08, title := "终局期", subtitle := "最后冲刺!" }

/-- Embeds enum class GameState of GameEngine.h. -/
inductive GameState where
  | Calibrating
  | Countdown
  | Playing
  | Paused
  | GameOver
deriving DecidableEq, Repr

/- Embeds struct GameSettings of GameConfig.h. -/
namespace GameSettings

def GAME_DURATION : ℚ := 45
def TARGET_FPS : Int := 60
def ZONE_P1 : ℚ := 0.4
def ZONE_SHARED : ℚ := 0.2
def ZONE_P2 : ℚ := 0.4
def CAPTURE_RADIUS : ℚ := 100
def PERFECT_CAPTURE_RADIUS : ℚ := 30
def SCREEN_WIDTH : Int := 1920
def SCREEN_HEIGHT : Int := 1080
def HUD_HEIGHT : Int := 80
def COMBO_TIMEOUT : ℚ := 2
def PHASE_WARMUP_END : ℚ := 15
def PHASE_RUSH_END : ℚ := 30

end GameSettings

/- Embeds struct ScoreConfig of GameConfig.h. -/
namespace ScoreConfig

def COMBO_2X : ℚ := 1.2
def COMBO_5X : ℚ := 1.5
def COMBO_10X : ℚ := 2.0
def COMBO_20X : ℚ := 3.0
def PERFECT_CAPTURE_BONUS : Int := 5
def EXTREME_CAPTURE_BONUS : Int := 10
def MULTI_CAPTURE_BONUS : Int := 20

/-- Embeds ScoreConfig::getComboMultiplier of GameConfig.h. -/
def getComboMultiplier (combo : Int) : ℚ :=
  if combo ≥ 20 then COMBO_20X
  else if combo ≥ 10 then COMBO_10X
  else if combo ≥ 5 then COMBO_5X
  else if combo ≥ 2 then COMBO_2X
  else 1.0

end ScoreConfig

/-- Embeds struct HandPosition of PoseDetector.h. -/
structure HandPosition where
  x : ℚ := 0
  y : ℚ := 0
  visibility : ℚ := 0
  valid : Bool := false
deriving DecidableEq, Repr

/-- Embeds struct DetectedPerson of PoseDetector.h. -/
structure DetectedPerson where
  id : Int := 0
  leftHand : HandPosition := {}
  rightHand : HandPosition := {}
  shoulder : HandPosition := {}
  hip : HandPosition := {}
  head : HandPosition := {}
  leftShoulder : HandPosition := {}
  rightShoulder : HandPosition := {}
  leftElbow : HandPosition := {}
  rightElbow : HandPosition := {}
deriving DecidableEq, Repr

/-- Embeds struct HandGestureResult of GestureDetector.h. -/
structure HandGestureResult where
  detected : Bool := false
  isOkGesture : Bool := false
  x : ℚ := 0
  y : ℚ := 0
  confidence : ℚ := 0
deriving DecidableEq, Repr

/-- Embeds struct GestureResult of GestureDetector.h. -/
structure GestureResult where
  leftHand : HandGestureResult := {}
  rightHand : HandGestureResult := {}
deriving DecidableEq, Repr

/-- Embeds GestureResult::anyOkGesture of GestureDetector.h. -/
def GestureResult.anyOkGesture (g : GestureResult) : Bool :=
  g.leftHand.isOkGesture || g.rightHand.isOkGesture

/-- Embeds struct FallingItem of FallingItem.h, with the member default
values of that header. -/
structure FallingItem where
  id : Int := 0
  type : ItemType := ItemType.Popcorn
  x : ℚ := 0
  y : ℚ := 0
  size : ℚ := 65
  speed : ℚ := 400
  rotation : ℚ := 0
  rotationSpeed : ℚ := 0
  active : Bool := true
  captured : Bool := false
  captureAlpha : ℚ := 1
  color : Nat := Colors.Popcorn
  emoji : String := "🍿"
deriving DecidableEq, Repr

/-- Embeds FallingItem::initFromConfig of FallingItem.h (the lookup always
succeeds since ITEM_CONFIGS is total). -/
def FallingItem.initFromConfig (item : FallingItem) (itemType : ItemType) : FallingItem :=
  let config := ITEM_CONFIGS itemType
  { item with type := itemType, size := config.size, color := config.color,
              emoji := config.name }

/-- Embeds FallingItem::getScore of FallingItem.h. -/
def FallingItem.getScore (item : FallingItem) : Int :=
  (ITEM_CONFIGS item.type).score

/-- Embeds FallingItem::isBomb of FallingItem.h. -/
def FallingItem.isBomb (item : FallingItem) : Bool :=
  item.type = ItemType.Bomb

/-- Embeds FallingItem::isHighValue of FallingItem.h. -/
def FallingItem.isHighValue (item : FallingItem) : Bool :=
  item.getScore ≥ 50

/-- Embeds struct CollisionResult of CollisionSystem.h. -/
structure CollisionResult where
  itemId : Int := -1
  personId : Int := -1
  isLeftHand : Bool := false
  scoreChange : Int := 0
deriving DecidableEq, Repr

/-- Embeds CollisionSystem::distanceSquared of CollisionSystem.cpp. -/
def distanceSquared (x1 y1 x2 y2 : ℚ) : ℚ :=
  let dx := x2 - x1
  let dy := y2 - y1
  dx * dx + dy * dy

/-- Embeds CollisionSystem::checkHandItemCollision of CollisionSystem.cpp;
handRadius is the m_handRadius member. -/
def checkHandItemCollision (handRadius : ℚ) (hand : HandPosition) (item : FallingItem) : Bool :=
  let collisionRadius := handRadius + item.size / 2
  let collisionRadiusSq := collisionRadius * collisionRadius
  let distSq := distanceSquared hand.x hand.y item.x item.y
  decide (distSq ≤ collisionRadiusSq)

/-- Embeds the inner person loop of CollisionSystem::detectCollisions
(CollisionSystem.cpp lines 17-47): for one item, scan persons in list order,
testing the left wrist and then the right wrist, returning the first hit. -/
def collideItemWithPersons (handRadius : ℚ) (item : FallingItem) :
    List DetectedPerson → Option CollisionResult
  | [] => none
  | person :: rest =>
      if person.leftHand.valid && checkHandItemCollision handRadius person.leftHand item then
        some { itemId := item.id, personId := person.id, isLeftHand := true,
               scoreChange := item.getScore }
      else if person.rightHand.valid && checkHandItemCollision handRadius person.rightHand item then
        some { itemId := item.id, personId := person.id, isLeftHand := false,
               scoreChange := item.getScore }
      else collideItemWithPersons handRadius item rest

/-- Embeds CollisionSystem::detectCollisions of CollisionSystem.cpp. The C++
mutates the item vector (deactivating hit items), so the embedding returns the
result list together with the updated item list. -/
def detectCollisions (handRadius : ℚ) :
    List FallingItem → List DetectedPerson → List CollisionResult × List FallingItem
  | [], _ => ([], [])
  | item :: rest, persons =>
      if item.active then
        match collideItemWithPersons handRadius item persons with
        | some r =>
            (r :: (detectCollisions handRadius rest persons).1,
             { item with active := false } :: (detectCollisions handRadius rest persons).2)
        | none =>
            ((detectCollisions handRadius rest persons).1,
             item :: (detectCollisions handRadius rest persons).2)
      else
        ((detectCollisions handRadius rest persons).1,
         item :: (detectCollisions handRadius rest persons).2)

namespace PoseDetector

/-- Embeds the m_confidenceThreshold member default of PoseDetector.h. -/
def defaultConfidenceThreshold : ℚ := 0.3

/-- Embeds the getKeypoint lambda of PoseDetector::parseOutput
(PoseDetector.cpp lines 154-166): output is the flat [1,1,17,3] tensor,
each keypoint being [y, x, confidence]. -/
def getKeypoint (output : Nat → ℚ) (confidenceThreshold : ℚ)
    (frameWidth frameHeight : ℚ) (index : Nat) : HandPosition :=
  let y := output (index * 3 + 0)
  let x := output (index * 3 + 1)
  let conf := output (index * 3 + 2)
  { x := x * frameWidth, y := y * frameHeight, visibility := conf,
    valid := decide (conf > confidenceThreshold) }

end PoseDetector

/-- The random draws consumed by one call to GameEngine::spawnItem
(GameEngine.cpp lines 172-177), passed explicitly since the embedding is
deterministic: xFrac from xDist in [0.1,0.9], speedVar from speedVariation in
[0.8,1.2], rotSpeed from rotSpeedDist in [-180,180], typeRoll from typeDist
in 0..99. -/
structure SpawnRolls where
  xFrac : ℚ := 0.5
  speedVar : ℚ := 1
  rotSpeed : ℚ := 0
  typeRoll : Int := 0
deriving DecidableEq, Repr

/-- Embeds the weighted-type selection loop of GameEngine::spawnItem
(GameEngine.cpp lines 186-194): walk the weight table accumulating weights,
returning the first type whose cumulative weight exceeds the roll. -/
def pickType (typeRoll : Int) : Int → List (ItemType × Int) → Option ItemType
  | _, [] => none
  | cumulative, (itemType, weight) :: rest =>
      if typeRoll < cumulative + weight then some itemType
      else pickType typeRoll (cumulative + weight) rest

/-- Embeds class GameEngine of GameEngine.h, with that header's member
default values. handRadius models m_collisionSystem->m_handRadius (default
50 in CollisionSystem.h, set to 50 by GameEngine::initialize). -/
structure GameEngine where
  width : Int := 0
  height : Int := 0
  state : GameState := GameState.Calibrating
  phase : GamePhase := GamePhase.Warmup
  p1Score : Int := 0
  p2Score : Int := 0
  p1Combo : Int := 0
  p2Combo : Int := 0
  p1ComboTimer : ℚ := 0
  p2ComboTimer : ℚ := 0
  gameTime : ℚ := 0
  remainingTime : ℚ := GameSettings.GAME_DURATION
  spawnTimer : ℚ := 0
  spawnInterval : ℚ := 0.25
  fallingItems : List FallingItem := []
  detectedPersons : List DetectedPerson := []
  handRadius : ℚ := 50
  nextItemId : Int := 0
deriving Repr

/-- Embeds GameEngine::initialize of GameEngine.cpp: store the size and set
the collision system hand radius to 50. -/
def GameEngine.init (e : GameEngine) (width height : Int) : GameEngine :=
  { e with width := width, height := height, handRadius := 50 }

/-- Embeds GameEngine::reset of GameEngine.cpp. -/
def GameEngine.reset (e : GameEngine) : GameEngine :=
  { e with p1Score := 0, p2Score := 0, p1Combo := 0, p2Combo := 0,
           p1ComboTimer := 0, p2ComboTimer := 0, gameTime := 0,
           remainingTime := GameSettings.GAME_DURATION,
           phase := GamePhase.Warmup, spawnTimer := 0, fallingItems := [],
           nextItemId := 0, state := GameState.Calibrating }

/-- Embeds GameEngine::startGame of GameEngine.cpp. -/
def GameEngine.startGame (e : GameEngine) : GameEngine :=
  if e.state = GameState.Calibrating ∨ e.state = GameState.GameOver then
    { e.reset with state := GameState.Playing }
  else e

/-- Embeds GameEngine::togglePause of GameEngine.cpp. -/
def GameEngine.togglePause (e : GameEngine) : GameEngine :=
  if e.state = GameState.Playing then { e with state := GameState.Paused }
  else if e.state = GameState.Paused then { e with state := GameState.Playing }
  else e

/-- Embeds GameEngine::updatePhase of GameEngine.cpp. -/
def GameEngine.updatePhase (e : GameEngine) : GameEngine :=
  if e.gameTime < GameSettings.PHASE_WARMUP_END then
    { e with phase := GamePhase.Warmup }
  else if e.gameTime < GameSettings.PHASE_RUSH_END then
    { e with phase := GamePhase.Rush }
  else
    { e with phase := GamePhase.Finale }

/-- Embeds GameEngine::spawnItem of GameEngine.cpp, with the random draws
passed in. The PHASE_CONFIGS and ITEM_CONFIGS lookups always succeed (the
maps are total), matching the found branch of the C++ ternaries. -/
def GameEngine.spawnItem (e : GameEngine) (rolls : SpawnRolls) : GameEngine :=
  let item : FallingItem :=
    { id := e.nextItemId, x := rolls.xFrac * (e.width : ℚ), y := -50,
      rotationSpeed := rolls.rotSpeed }
  let item :=
    match pickType rolls.typeRoll 0 ITEM_SPAWN_WEIGHTS with
    | some t => item.initFromConfig t
    | none => item
  let item := if item.size = 0 then item.initFromConfig ItemType.Popcorn else item
  let baseSpeed := (PHASE_CONFIGS e.phase).fallSpeed
  let speedMult := (ITEM_CONFIGS item.type).speedMultiplier
  let item := { item with speed := baseSpeed * speedMult * rolls.speedVar }
  { e with fallingItems := e.fallingItems ++ [item], nextItemId := e.nextItemId + 1 }

/-- Embeds the spawn block of GameEngine::update (GameEngine.cpp lines
71-81): advance the spawn timer by deltaTime; if it reaches the interval
1/spawnRate for the current phase, spawn one item and set the timer to 0. -/
def GameEngine.spawnBlock (e : GameEngine) (deltaTime : ℚ) (rolls : SpawnRolls) : GameEngine :=
  let e := { e with spawnTimer := e.spawnTimer + deltaTime }
  let rate := (PHASE_CONFIGS e.phase).spawnRate
  let interval := 1 / rate
  if e.spawnTimer ≥ interval then { e.spawnItem rolls with spawnTimer := 0 }
  else e

/-- Normalizes an angle into [0, 360): the two while loops of
GameEngine::updateItems (GameEngine.cpp lines 224-225) subtract or add 360
until the angle lies in [0, 360), which equals subtracting 360 times the
floor of angle/360. -/
def wrap360 (rotation : ℚ) : ℚ :=
  rotation - 360 * ((rotation / 360).floor : ℚ)

/-- Embeds GameEngine::updateItems of GameEngine.cpp. -/
def GameEngine.updateItems (e : GameEngine) (deltaTime : ℚ) : GameEngine :=
  { e with fallingItems := e.fallingItems.map (fun item =>
      if item.active then
        { item with y := item.y + item.speed * deltaTime,
                    rotation := wrap360 (item.rotation + item.rotationSpeed * deltaTime) }
      else item) }

/-- Embeds GameEngine::removeOffscreenItems of GameEngine.cpp: erase items
with not active or y beyond the bottom margin. -/
def GameEngine.removeOffscreenItems (e : GameEngine) : GameEngine :=
  { e with fallingItems := e.fallingItems.filter (fun item =>
      !(!item.active || decide (item.y > (e.height : ℚ) + 100))) }

/-- Embeds the per-collision scoring block of GameEngine::update
(GameEngine.cpp lines 90-105): playerId is hardcoded to 0 ("暂时假设玩家1"),
the score change is added raw, and on a positive change the combo is
incremented and its timer reset to COMBO_TIMEOUT. -/
def GameEngine.applyCollision (e : GameEngine) (collision : CollisionResult) : GameEngine :=
  let playerId : Int := 0
  if playerId = 0 then
    let e := { e with p1Score := e.p1Score + collision.scoreChange }
    if collision.scoreChange > 0 then
      { e with p1Combo := e.p1Combo + 1, p1ComboTimer := GameSettings.COMBO_TIMEOUT }
    else e
  else
    let e := { e with p2Score := e.p2Score + collision.scoreChange }
    if collision.scoreChange > 0 then
      { e with p2Combo := e.p2Combo + 1, p2ComboTimer := GameSettings.COMBO_TIMEOUT }
    else e

/-- Embeds GameEngine::update of GameEngine.cpp. Console output and the
static hint counter are dropped; the null check on m_collisionSystem is
dropped (the system is created in GameEngine::initialize). -/
def GameEngine.update (e : GameEngine) (deltaTime : ℚ) (persons : List DetectedPerson)
    (gesture : GestureResult) (rolls : SpawnRolls) : GameEngine :=
  let e1 := { e with detectedPersons := persons }
  match e1.state with
  | GameState.Calibrating =>
      if !persons.isEmpty then
        if gesture.anyOkGesture then e1.startGame else e1
      else e1
  | GameState.Countdown => e1
  | GameState.Playing =>
      let e2 := { e1 with gameTime := e1.gameTime + deltaTime,
                          remainingTime := e1.remainingTime - deltaTime }
      if e2.remainingTime ≤ 0 then
        { e2 with remainingTime := 0, state := GameState.GameOver }
      else
        let e3 := e2.updatePhase
        let e4 := { e3 with p1ComboTimer := e3.p1ComboTimer - deltaTime,
                            p2ComboTimer := e3.p2ComboTimer - deltaTime }
        let e5 := if e4.p1ComboTimer ≤ 0 then { e4 with p1Combo := 0 } else e4
        let e6 := if e5.p2ComboTimer ≤ 0 then { e5 with p2Combo := 0 } else e5
        let e7 := e6.spawnBlock deltaTime rolls
        let e8 := e7.updateItems deltaTime
        let e9 :=
          if !persons.isEmpty then
            let pr := detectCollisions e8.handRadius e8.fallingItems persons
            pr.1.foldl GameEngine.applyCollision { e8 with fallingItems := pr.2 }
          else e8
        e9.removeOffscreenItems
  | GameState.Paused => e1
  | GameState.GameOver => e1

/-! Concrete fixtures used by the witness and counterexample theorems below. -/

/-- A Popcorn item (base score 10) centered at the origin. -/
def itemP0 : FallingItem := { id := 7, x := 0, y := 0 }

/-- A person whose left wrist is valid and at the origin. -/
def personL : DetectedPerson := { id := 3, leftHand := { x := 0, y := 0, valid := true } }

/-- The collision result produced for itemP0 and personL. -/
def colRes0 : CollisionResult :=
  { itemId := 7, personId := 3, isLeftHand := true, scoreChange := 10 }

/-- A Playing engine in the Warmup phase with an empty spawn timer. -/
def warmEngine : GameEngine := { state := GameState.Playing, width := 1920, height := 1080 }

/-- Fixed random draws for spawning. -/
def rolls0 : SpawnRolls := {}

/-- A Playing engine with player 1 at score 100 and combo 5. -/
def comboEngine : GameEngine := { state := GameState.Playing, p1Score := 100, p1Combo := 5 }

/-- A positive capture worth 10 points. -/
def colPlus : CollisionResult := { itemId := 7, personId := 3, isLeftHand := true, scoreChange := 10 }

/-- A Playing engine with player 1 at combo 3. -/
def bombEngine : GameEngine := { state := GameState.Playing, p1Score := 50, p1Combo := 3 }

/-- A bomb capture worth -30 points. -/
def colBomb : CollisionResult := { itemId := 9, personId := 3, isLeftHand := false, scoreChange := -30 }

/-- An engine in the GameOver state. -/
def overEngine : GameEngine :=
  { state := GameState.GameOver, p1Score := 42, p2Score := 17, gameTime := 45, remainingTime := 0 }

/-- An engine in the Paused state. -/
def pausedEngine : GameEngine :=
  { state := GameState.Paused, p1Score := 12, gameTime := 20, remainingTime := 25,
    phase := GamePhase.Rush, spawnTimer := 1/8, fallingItems := [itemP0] }

/-! Helper lemmas shared by several theorems. -/

/-- Any collision result returned by the person-scan loop carries the scanned
item's id and base score. -/
theorem collideItemWithPersons_some_fields (radius : ℚ) (item : FallingItem) :
    ∀ (persons : List DetectedPerson) (res : CollisionResult),
      collideItemWithPersons radius item persons = some res →
      res.itemId = item.id ∧ res.scoreChange = item.getScore := by
  intro persons
  induction persons with
  | nil => intro res h; simp [collideItemWithPersons] at h
  | cons p rest ih =>
      intro res h
      simp only [collideItemWithPersons] at h
      split at h
      · injection h with h; subst h; exact ⟨rfl, rfl⟩
      · split at h
        · injection h with h; subst h; exact ⟨rfl, rfl⟩
        · exact ih res h

/-! Claim theorems. -/

/-- Claim C1 counterexample: with player 1 at combo 5 and score 100, applying a
collision with score_change = +10 yields score 110 and combo 6, i.e. the raw +10
was added, although the combo multiplier step function gives 3/2 both at combo 5
and at combo 6, so the claimed delta score_change * multiplier = 15 is wrong. -/
theorem combo_multiplier_not_applied :
    (comboEngine.applyCollision colPlus).p1Score = 110 ∧
    (comboEngine.applyCollision colPlus).p1Combo = 6 ∧
    ScoreConfig.getComboMultiplier 5 = 3/2 ∧
    ScoreConfig.getComboMultiplier 6 = 3/2 ∧
    (((comboEngine.applyCollision colPlus).p1Score : ℚ) - (comboEngine.p1Score : ℚ) ≠
      (colPlus.scoreChange : ℚ) * ScoreConfig.getComboMultiplier 6) := by
  norm_num [GameEngine.applyCollision, comboEngine, colPlus,
    ScoreConfig.getComboMultiplier, ScoreConfig.COMBO_5X]

/-- Claim C1 (amended): when GameEngine::update applies a CollisionResult with
positive score_change, it increments player 1's combo, resets the combo timer
to COMBO_TIMEOUT = 2.0 s, and adds the raw score_change to the score; the
combo multiplier defined in ScoreConfig is never applied. -/
theorem applyCollision_positive_raw (e : GameEngine) (c : CollisionResult)
    (h : 0 < c.scoreChange) :
    (e.applyCollision c).p1Score = e.p1Score + c.scoreChange ∧
    (e.applyCollision c).p1Combo = e.p1Combo + 1 ∧
    (e.applyCollision c).p1ComboTimer = GameSettings.COMBO_TIMEOUT ∧
    GameSettings.COMBO_TIMEOUT = 2 := by
  simp [GameEngine.applyCollision, h, GameSettings.COMBO_TIMEOUT]

/-- Claim C1 (amended) witness at a concrete positive capture. -/
theorem applyCollision_positive_raw_witness :
    0 < colPlus.scoreChange ∧
    ((comboEngine.applyCollision colPlus).p1Score = comboEngine.p1Score + colPlus.scoreChange ∧
     (comboEngine.applyCollision colPlus).p1Combo = comboEngine.p1Combo + 1 ∧
     (comboEngine.applyCollision colPlus).p1ComboTimer = GameSettings.COMBO_TIMEOUT ∧
     GameSettings.COMBO_TIMEOUT = 2) :=
  ⟨by norm_num [colPlus],
   applyCollision_positive_raw comboEngine colPlus (by norm_num [colPlus])⟩

/-- Claim C2 counterexample: a capture at distance 0 (within the 30 px
perfect-capture radius) still produces score_change = 10, the Popcorn base
score, not base + PERFECT_CAPTURE_BONUS = 15: no bonus is granted anywhere. -/
theorem perfect_capture_bonus_not_granted :
    distanceSquared personL.leftHand.x personL.leftHand.y itemP0.x itemP0.y ≤
      GameSettings.PERFECT_CAPTURE_RADIUS * GameSettings.PERFECT_CAPTURE_RADIUS ∧
    collideItemWithPersons 50 itemP0 [personL] = some colRes0 ∧
    colRes0.scoreChange = 10 ∧
    itemP0.getScore = 10 ∧
    colRes0.scoreChange ≠ itemP0.getScore + ScoreConfig.PERFECT_CAPTURE_BONUS := by
  norm_num [collideItemWithPersons, checkHandItemCollision, distanceSquared, itemP0,
    personL, colRes0, FallingItem.getScore, ITEM_CONFIGS,
    GameSettings.PERFECT_CAPTURE_RADIUS, ScoreConfig.PERFECT_CAPTURE_BONUS]

/-- Claim C2 (amended): every collision result carries score_change equal to
the item's base score, regardless of the hand-to-item distance; the
PERFECT_CAPTURE_BONUS constant exists in ScoreConfig but is never applied. -/
theorem collision_scoreChange_is_base_score (radius : ℚ) (item : FallingItem)
    (persons : List DetectedPerson) (res : CollisionResult)
    (h : collideItemWithPersons radius item persons = some res) :
    res.scoreChange = item.getScore :=
  (collideItemWithPersons_some_fields radius item persons res h).2

/-- Claim C2 (amended) witness at a perfect-distance capture. -/
theorem collision_scoreChange_is_base_score_witness :
    colRes0.scoreChange = itemP0.getScore :=
  collision_scoreChange_is_base_score 50 itemP0 [personL] colRes0
    (by norm_num [collideItemWithPersons, checkHandItemCollision, distanceSquared,
      itemP0, personL, colRes0, FallingItem.getScore, ITEM_CONFIGS])

/-- Claim C3 counterexample: applying a bomb collision (score_change = -30) to
player 1 at combo 3 leaves the combo at 3; it is not reset to 0. -/
theorem bomb_does_not_reset_combo :
    colBomb.scoreChange = -30 ∧
    (bombEngine.applyCollision colBomb).p1Combo = 3 ∧
    (3 : Int) ≠ 0 := by
  norm_num [GameEngine.applyCollision, bombEngine, colBomb]

/-- Claim C3 (amended): a CollisionResult with negative score_change adds the
(negative) score_change to player 1's score and leaves the combo count and
combo timer unchanged; the combo is neither advanced nor reset to 0. -/
theorem applyCollision_negative_combo_unchanged (e : GameEngine) (c : CollisionResult)
    (h : c.scoreChange < 0) :
    (e.applyCollision c).p1Combo = e.p1Combo ∧
    (e.applyCollision c).p1ComboTimer = e.p1ComboTimer ∧
    (e.applyCollision c).p1Score = e.p1Score + c.scoreChange := by
  have h2 : ¬ (c.scoreChange > 0) := by omega
  simp [GameEngine.applyCollision, h2]

/-- Claim C3 (amended) witness at a concrete bomb capture. -/
theorem applyCollision_negative_combo_unchanged_witness :
    colBomb.scoreChange < 0 ∧
    ((bombEngine.applyCollision colBomb).p1Combo = bombEngine.p1Combo ∧
     (bombEngine.applyCollision colBomb).p1ComboTimer = bombEngine.p1ComboTimer ∧
     (bombEngine.applyCollision colBomb).p1Score = bombEngine.p1Score + colBomb.scoreChange) :=
  ⟨by norm_num [colBomb],
   applyCollision_negative_combo_unchanged bombEngine colBomb (by norm_num [colBomb])⟩

/-- Claim C4 counterexample: in Warmup (interval 1/4 s), advancing the spawn
timer from 0 by dt = 3/10 spawns and then resets the timer to 0, not to the
remainder 3/10 - 1/4 = 1/20; and a tick with dt = 1/2 (two whole intervals)
spawns a single item, not two. -/
theorem spawner_single_spawn_counterexample :
    1 / (PHASE_CONFIGS warmEngine.phase).spawnRate = 1/4 ∧
    (warmEngine.spawnBlock (3/10) rolls0).spawnTimer = 0 ∧
    ((3 : ℚ)/10 - 1/4 ≠ 0) ∧
    warmEngine.fallingItems.length = 0 ∧
    (warmEngine.spawnBlock (1/2) rolls0).fallingItems.length = 1 ∧
    (1 : Nat) ≠ 2 := by
  norm_num [GameEngine.spawnBlock, GameEngine.spawnItem, warmEngine, PHASE_CONFIGS, rolls0]

/-- Claim C4 (amended): each Playing tick advances the spawn timer by dt and
then, if the timer has reached the interval 1/phase.spawn_rate, spawns exactly
one item and resets the timer to 0 (discarding the fractional remainder);
otherwise it spawns nothing and keeps the advanced timer. -/
theorem spawnBlock_single_spawn_and_reset (e : GameEngine) (dt : ℚ) (rolls : SpawnRolls) :
    ((e.spawnBlock dt rolls).spawnTimer =
      if e.spawnTimer + dt ≥ 1 / (PHASE_CONFIGS e.phase).spawnRate then 0
      else e.spawnTimer + dt) ∧
    ((e.spawnBlock dt rolls).fallingItems.length =
      if e.spawnTimer + dt ≥ 1 / (PHASE_CONFIGS e.phase).spawnRate then
        e.fallingItems.length + 1
      else e.fallingItems.length) := by
  unfold GameEngine.spawnBlock
  simp only [ge_iff_le, one_div]
  split_ifs with h
  · simp [GameEngine.spawnItem]
  · simp

/-- Claim C5: once the state is GameOver, a further update call leaves game
time, remaining time, the falling-item list, and both players' scores
unchanged, and the state stays GameOver. -/
theorem update_gameOver_frozen (e : GameEngine) (dt : ℚ) (persons : List DetectedPerson)
    (gesture : GestureResult) (rolls : SpawnRolls) (h : e.state = GameState.GameOver) :
    (e.update dt persons gesture rolls).gameTime = e.gameTime ∧
    (e.update dt persons gesture rolls).remainingTime = e.remainingTime ∧
    (e.update dt persons gesture rolls).fallingItems = e.fallingItems ∧
    (e.update dt persons gesture rolls).p1Score = e.p1Score ∧
    (e.update dt persons gesture rolls).p2Score = e.p2Score ∧
    (e.update dt persons gesture rolls).state = GameState.GameOver := by
  simp [GameEngine.update, h]

/-- Claim C5 witness at a concrete GameOver engine. -/
theorem update_gameOver_frozen_witness :
    (overEngine.update 1 [personL] {} rolls0).gameTime = overEngine.gameTime ∧
    (overEngine.update 1 [personL] {} rolls0).remainingTime = overEngine.remainingTime ∧
    (overEngine.update 1 [personL] {} rolls0).fallingItems = overEngine.fallingItems ∧
    (overEngine.update 1 [personL] {} rolls0).p1Score = overEngine.p1Score ∧
    (overEngine.update 1 [personL] {} rolls0).p2Score = overEngine.p2Score ∧
    (overEngine.update 1 [personL] {} rolls0).state = GameState.GameOver :=
  update_gameOver_frozen overEngine 1 [personL] {} rolls0 rfl

/-- Claim C6: the phase recomputed from game_time by GameEngine::updatePhase
is Warmup iff game_time < 15, Rush iff 15 ≤ game_time < 30, and Finale iff
game_time ≥ 30. -/
theorem updatePhase_thresholds (e : GameEngine) :
    ((e.updatePhase).phase = GamePhase.Warmup ↔ e.gameTime < 15) ∧
    ((e.updatePhase).phase = GamePhase.Rush ↔ 15 ≤ e.gameTime ∧ e.gameTime < 30) ∧
    ((e.updatePhase).phase = GamePhase.Finale ↔ 30 ≤ e.gameTime) := by
  unfold GameEngine.updatePhase GameSettings.PHASE_WARMUP_END GameSettings.PHASE_RUSH_END
  split_ifs with h1 h2 <;>
      refine ⟨?_, ?_, ?_⟩ <;> simp <;>
    first
      | linarith
      | (intro hx; linarith)
      | (exact ⟨by linarith, by linarith⟩)

/-- Claim C7: hand-item collision holds exactly when the squared distance is
at most (hand_radius + item_size/2)^2; GameEngine::initialize sets the hand
radius to 50; within one pass each item yields at most one result (the result
item ids form a sublist of the input item ids); and for each person the left
wrist is tested before the right wrist, the first hit winning, falling through
to the remaining persons in list order when neither wrist hits. -/
theorem collision_rule_and_order :
    (∀ (radius : ℚ) (hand : HandPosition) (item : FallingItem),
        (checkHandItemCollision radius hand item = true ↔
          distanceSquared hand.x hand.y item.x item.y ≤
            (radius + item.size / 2) * (radius + item.size / 2))) ∧
    (∀ (e : GameEngine) (w h : Int), (e.init w h).handRadius = 50) ∧
    (∀ (radius : ℚ) (items : List FallingItem) (persons : List DetectedPerson),
        ((detectCollisions radius items persons).1.map CollisionResult.itemId).Sublist
          (items.map FallingItem.id)) ∧
    (∀ (radius : ℚ) (p : DetectedPerson) (rest : List DetectedPerson) (item : FallingItem),
        (p.leftHand.valid = true → checkHandItemCollision radius p.leftHand item = true →
            collideItemWithPersons radius item (p :: rest) =
              some { itemId := item.id, personId := p.id, isLeftHand := true,
                     scoreChange := item.getScore }) ∧
        ((p.leftHand.valid = false ∨ checkHandItemCollision radius p.leftHand item = false) →
            p.rightHand.valid = true → checkHandItemCollision radius p.rightHand item = true →
            collideItemWithPersons radius item (p :: rest) =
              some { itemId := item.id, personId := p.id, isLeftHand := false,
                     scoreChange := item.getScore }) ∧
        ((p.leftHand.valid = false ∨ checkHandItemCollision radius p.leftHand item = false) →
            (p.rightHand.valid = false ∨ checkHandItemCollision radius p.rightHand item = false) →
            collideItemWithPersons radius item (p :: rest) =
              collideItemWithPersons radius item rest)) := by
  refine ⟨?_, ?_, ?_, ?_⟩
  · intro radius hand item
    simp [checkHandItemCollision]
  · intro e w h
    simp [GameEngine.init]
  · intro radius items persons
    induction items with
    | nil => simp [detectCollisions]
    | cons item rest ih =>
        by_cases ha : item.active
        · rcases hc : collideItemWithPersons radius item persons with _ | r
          · simpa [detectCollisions, ha, hc] using ih.cons item.id
          · have hid := (collideItemWithPersons_some_fields radius item persons r hc).1
            simpa [detectCollisions, ha, hc, hid] using ih.cons₂ item.id
        · simpa [detectCollisions, ha] using ih.cons item.id
  · intro radius p rest item
    refine ⟨?_, ?_, ?_⟩
    · intro h1 h2
      simp [collideItemWithPersons, h1, h2]
    · rintro (h1 | h1) h2 h3 <;> simp [collideItemWithPersons, h1, h2, h3]
    · rintro (h1 | h1) (h2 | h2) <;> simp [collideItemWithPersons, h1, h2]

/-- Claim C7 witness: at a concrete item and person, the collision predicate,
the initialized radius, the sublist property, and the left-wrist-first rule,
instantiated and with all hypotheses discharged. -/
theorem collision_rule_and_order_witness :
    (checkHandItemCollision 50 personL.leftHand itemP0 = true ↔
      distanceSquared personL.leftHand.x personL.leftHand.y itemP0.x itemP0.y ≤
        (50 + itemP0.size / 2) * (50 + itemP0.size / 2)) ∧
    ((warmEngine.init 1920 1080).handRadius = 50) ∧
    (((detectCollisions 50 [itemP0] [personL]).1.map CollisionResult.itemId).Sublist
      ([itemP0].map FallingItem.id)) ∧
    (collideItemWithPersons 50 itemP0 [personL] =
      some { itemId := itemP0.id, personId := personL.id, isLeftHand := true,
             scoreChange := itemP0.getScore }) :=
  ⟨collision_rule_and_order.1 50 personL.leftHand itemP0,
   collision_rule_and_order.2.1 warmEngine 1920 1080,
   collision_rule_and_order.2.2.1 50 [itemP0] [personL],
   (collision_rule_and_order.2.2.2 50 personL [] itemP0).1
     (by norm_num [personL])
     (by norm_num [checkHandItemCollision, distanceSquared, personL, itemP0])⟩

/-- Claim C8: running collision detection a second time on the item list left
by a first pass (with the same persons) yields no collision results and leaves
the items unchanged: items hit in the first pass were deactivated, so the two
passes together produce exactly the results of the first. -/
theorem detectCollisions_idempotent (radius : ℚ) (items : List FallingItem)
    (persons : List DetectedPerson) :
    detectCollisions radius (detectCollisions radius items persons).2 persons =
      ([], (detectCollisions radius items persons).2) := by
  induction items with
  | nil => simp [detectCollisions]
  | cons item rest ih =>
      by_cases ha : item.active
      · rcases hc : collideItemWithPersons radius item persons with _ | r
        · simp [detectCollisions, ha, hc, ih]
        · simp [detectCollisions, ha, hc, ih]
      · simp [detectCollisions, ha, ih]

/-- Claim C9 counterexample: with the default confidence threshold 0.3, a
keypoint whose confidence is exactly 0.3 satisfies confidence ≥ threshold yet
is parsed as not valid, because the code compares with strict >. -/
theorem keypoint_threshold_boundary_counterexample :
    PoseDetector.defaultConfidenceThreshold = 3/10 ∧
    (3/10 : ℚ) ≥ PoseDetector.defaultConfidenceThreshold ∧
    (PoseDetector.getKeypoint (fun _ => 3/10) PoseDetector.defaultConfidenceThreshold
        192 192 0).valid = false := by
  norm_num [PoseDetector.getKeypoint, PoseDetector.defaultConfidenceThreshold]

/-- Claim C9 (amended): a parsed keypoint is valid exactly when its confidence
is strictly greater than the threshold (default 0.3); a confidence exactly
equal to the threshold yields an invalid keypoint. -/
theorem keypoint_valid_iff_strictly_above (output : Nat → ℚ) (thr w h : ℚ) (index : Nat) :
    ((PoseDetector.getKeypoint output thr w h index).valid = true ↔
      thr < output (index * 3 + 2)) ∧
    PoseDetector.defaultConfidenceThreshold = 3/10 := by
  constructor
  · simp [PoseDetector.getKeypoint]
  · norm_num [PoseDetector.defaultConfidenceThreshold]

/-- Claim C10: an update call in the Paused or Countdown state only replaces
the stored detected-persons list with the persons argument; every other field
of the engine is unchanged. -/
theorem update_paused_countdown_noop (e : GameEngine) (dt : ℚ)
    (persons : List DetectedPerson) (gesture : GestureResult) (rolls : SpawnRolls)
    (h : e.state = GameState.Paused ∨ e.state = GameState.Countdown) :
    e.update dt persons gesture rolls = { e with detectedPersons := persons } := by
  rcases h with h | h <;> simp [GameEngine.update, h]

/-- Claim C10 witness at a concrete Paused engine. -/
theorem update_paused_countdown_noop_witness :
    pausedEngine.update 1 [personL] {} rolls0 =
      { pausedEngine with detectedPersons := [personL] } :=
  update_paused_countdown_noop pausedEngine 1 [personL] {} rolls0 (Or.inl rfl)

end popcorn
